import Mathlib

/-!
Shallow embedding of the StormworksDatalink telemetry service
(`src/main.go`, `src/error_codes.go`, `src/vessel_types.go`).

Modelling conventions:
* Go `float64` values are modelled as `ℚ`; every numeric literal appearing
  in the claims is exactly representable, and the properties at stake are
  zero-tests and coercion-to-zero on parse failure, which `ℚ` reflects.
* Go `int32`/`int64` are modelled as `Int` with explicit range checks where
  the code's behaviour depends on them.
* Wall-clock reads (`time.Now().UnixMilli()`) become explicit `Int`
  parameters of the handler functions.
* The global map `vessels : map[string]VesselTelemetry` becomes an
  association list with distinct keys; `http` query parameters become a
  record of strings, the empty string standing for an absent parameter
  (Go's `url.Values.Get` returns `""` for absent keys).
-/

set_option autoImplicit false

namespace Datalink

/-! ## src/error_codes.go -/

/-- `type ErrorCode int32` constants, as integers. -/
def ErrorSuccess : Int := -1

def ErrorWrongID : Int := 1201

def ErrorWrongVesselType : Int := 1202

def ErrorUnauthorized : Int := 12401

def ErrorNotFound : Int := 12404

def ErrorServerError : Int := 12500

/-! ## src/vessel_types.go -/

/-- `type VesselType int32`: an open integer-backed enumeration. -/
structure VesselType where
  code : Int
deriving DecidableEq, Repr

/-- `func VesselTypeFromInt32(code int32) VesselType` — plain conversion. -/
def VesselTypeFromInt32 (code : Int) : VesselType := ⟨code⟩

/-- `func (e VesselType) ToInt32() int32` — plain conversion back. -/
def VesselType.ToInt32 (e : VesselType) : Int := e.code

def Installation : VesselType := ⟨1⟩

def Vessel : VesselType := ⟨2⟩

def Missile : VesselType := ⟨3⟩

def Air : VesselType := ⟨4⟩

/-! ## Numeric parsing (`parseFloat`, `parseInt32`, `strconv.ParseInt`)

`parseFloat` and `parseInt32` in `src/main.go` call `fmt.Sscanf` and ignore
its error, so a failed scan leaves the zero value in place.  The `fmt`
scanner takes the longest leading token matching the numeric syntax and
converts it; we model the decimal forms (optional sign, digits, optional
fraction) — exponents, hex floats, `inf`/`nan` and digit underscores are
not modelled, no claim mentions them. -/

/-- Longest prefix of decimal digits, paired with the rest. -/
def takeDigits : List Char → List Char × List Char
  | [] => ([], [])
  | c :: cs =>
      if c.isDigit then
        let (ds, rest) := takeDigits cs
        (c :: ds, rest)
      else ([], c :: cs)

/-- Value of a run of decimal digits. -/
def natOfDigits (ds : List Char) : Nat :=
  ds.foldl (fun acc c => acc * 10 + (c.toNat - 48)) 0

/-- Scan of a leading `%f` token: optional sign, digits, optional `.digits`.
`none` when no digit is found (the scan error `fmt.Sscanf` swallows). -/
def floatTok (cs : List Char) : Option ℚ :=
  let (sgn, cs1) : ℚ × List Char :=
    match cs with
    | '-' :: rest => (-1, rest)
    | '+' :: rest => (1, rest)
    | _ => (1, cs)
  let (ip, cs2) := takeDigits cs1
  match cs2 with
  | '.' :: cs3 =>
      let (fp, _) := takeDigits cs3
      if ip.isEmpty && fp.isEmpty then none
      else some (sgn * ((natOfDigits ip : ℚ) + (natOfDigits fp : ℚ) / (10 : ℚ) ^ fp.length))
  | _ => if ip.isEmpty then none else some (sgn * (natOfDigits ip : ℚ))

/-- `func parseFloat(s string) float64`: `fmt.Sscanf(s, "%f", &f)` with the
error ignored — a failed scan returns the zero value `0.0`. -/
def parseFloat (s : String) : ℚ :=
  match floatTok s.toList with
  | some q => q
  | none => 0

/-- Scan of a leading `%d` token: optional sign then digits; `none` when no
digit is found. -/
def intTok (cs : List Char) : Option Int :=
  let (sgn, cs1) : Int × List Char :=
    match cs with
    | '-' :: rest => (-1, rest)
    | '+' :: rest => (1, rest)
    | _ => (1, cs)
  let (ds, _) := takeDigits cs1
  if ds.isEmpty then none else some (sgn * (natOfDigits ds : Int))

/-- `func parseInt32(s string) int32`: `fmt.Sscanf(s, "%d", &i)` with the
error ignored; an out-of-range value is a conversion error, so `i` keeps
its zero value. -/
def parseInt32 (s : String) : Int :=
  match intTok s.toList with
  | some n => if -(2 ^ 31) ≤ n ∧ n < 2 ^ 31 then n else 0
  | none => 0

/-- Digit value in bases up to 16, `none` for a non-digit. -/
def digitVal (c : Char) : Option Nat :=
  if '0' ≤ c ∧ c ≤ '9' then some (c.toNat - 48)
  else if 'a' ≤ c ∧ c ≤ 'f' then some (c.toNat - 97 + 10)
  else if 'A' ≤ c ∧ c ≤ 'F' then some (c.toNat - 65 + 10)
  else none

/-- All of `cs` read as digits in base `b`; `none` on an empty list or any
character that is not a digit of base `b`. -/
def digitsInBase (b : Nat) : List Char → Option Nat
  | [] => none
  | [c] => match digitVal c with
    | some d => if d < b then some d else none
    | none => none
  | c :: cs =>
      match digitVal c, digitsInBase b cs with
      | some d, some n => if d < b then some (d * b ^ cs.length + n) else none
      | _, _ => none

/-- Unsigned part of `strconv.ParseInt(s, 0, 64)`: base inferred from the
prefix (`0x`/`0X` hex, `0o`/`0O` octal, `0b`/`0B` binary, a leading `0`
octal, otherwise decimal); the whole string must be consumed.  Digit
underscores are not modelled. -/
def parseUintBase0 : List Char → Option Nat
  | '0' :: 'x' :: cs => digitsInBase 16 cs
  | '0' :: 'X' :: cs => digitsInBase 16 cs
  | '0' :: 'o' :: cs => digitsInBase 8 cs
  | '0' :: 'O' :: cs => digitsInBase 8 cs
  | '0' :: 'b' :: cs => digitsInBase 2 cs
  | '0' :: 'B' :: cs => digitsInBase 2 cs
  | '0' :: c :: cs => digitsInBase 8 (c :: cs)
  | cs => digitsInBase 10 cs

/-- `strconv.ParseInt(s, 0, 64)`: optional sign, base-prefixed digits,
int64 range check; `none` models a non-nil error. -/
def goParseInt64 (s : String) : Option Int :=
  let (sgn, cs) : Int × List Char :=
    match s.toList with
    | '-' :: rest => (-1, rest)
    | '+' :: rest => (1, rest)
    | _ => (1, s.toList)
  match parseUintBase0 cs with
  | some n =>
      let v := sgn * (n : Int)
      if -(2 ^ 63) ≤ v ∧ v < 2 ^ 63 then some v else none
  | none => none

/-! ## Data model (`src/main.go`) -/

/-- `type VesselTelemetry struct` — one telemetry record.  The Go field
`Type` is rendered `VType` (`Type` is a sort in Lean). -/
structure VesselTelemetry where
  ID : Int
  Name : String
  Callsign : String
  X : ℚ
  Y : ℚ
  Z : ℚ
  ABSSpeed : ℚ
  VType : VesselType
  Direction : ℚ
  Timestamp : Int
  TgtX : ℚ
  TgtY : ℚ
  TgtZ : ℚ
  HasTgt : Bool
deriving DecidableEq, Repr

/-- The global `vessels = make(map[string]VesselTelemetry)`, as an
association list; well-formed states have pairwise-distinct keys. -/
abbrev Store := List (String × VesselTelemetry)

/-- The keys of a store, in order. -/
def storeKeys (store : Store) : List String := store.map Prod.fst

/-- Distinct keys: the representation invariant of the Go map. -/
def Store.WF (store : Store) : Prop := (storeKeys store).Nodup

/-- `vessels[vehId] = telemetry` — map assignment: replace the entry if the
key is present, otherwise add it. -/
def storeSet (store : Store) (k : String) (v : VesselTelemetry) : Store :=
  match store with
  | [] => [(k, v)]
  | kv :: rest =>
      if kv.1 = k then (k, v) :: rest else kv :: storeSet rest k v

/-- Map lookup `vessels[k]`. -/
def storeGet (store : Store) (k : String) : Option VesselTelemetry :=
  match store with
  | [] => none
  | kv :: rest => if kv.1 = k then some kv.2 else storeGet rest k

/-- The `for id, vessel := range vessels { if vessel.Timestamp < threshold
{ delete(...); removedCount++ } }` loop of `cleanupOldVessels`, against an
absolute threshold: surviving store and removed count. -/
def sweepList (store : Store) (threshold : Int) : Store × Nat :=
  match store with
  | [] => ([], 0)
  | kv :: rest =>
      let r := sweepList rest threshold
      if kv.2.Timestamp < threshold then (r.1, r.2 + 1) else (kv :: r.1, r.2)

/-- Number of entries stored under key `k`. -/
def countKey (store : Store) (k : String) : Nat :=
  store.countP (fun kv => decide (kv.1 = k))

/-- `sweep(now, thresholdMillis)` of the spec: the cleanup loop with
`threshold := now - thresholdMillis`. -/
def sweep (store : Store) (now thresholdMillis : Int) : Store × Nat :=
  sweepList store (now - thresholdMillis)

/-- `cleanupThreshold = 5 * time.Second`, in milliseconds
(`int64(cleanupThreshold/time.Millisecond)`). -/
def cleanupThresholdMillis : Int := 5000

/-! ## Request handlers (`src/main.go`) -/

/-- The query parameters `setVesselTelemetry` reads, one field per
`params.Get(...)` call; `""` stands for an absent parameter, as returned
by Go's `url.Values.Get`.  Field names follow the handler's locals. -/
structure SetParams where
  vehId : String
  vehXPos : String
  vehYPos : String
  vehZPos : String
  vehAbsSpeed : String
  vehDir : String
  veh_name : String
  callsign : String
  vesselType : String
  tgtXPos : String
  tgtYPos : String
  tgtZPos : String
deriving DecidableEq, Repr

/-- A JSON response body: either the single-field error object
`{"errorcode": c}` or the success object
`{"errorcode", "vessels", "count", "timestamp"}`. -/
inductive Response where
  | errBody (errorcode : Int)
  | okBody (errorcode : Int) (vessels : List VesselTelemetry) (count : Nat) (timestamp : Int)
deriving DecidableEq, Repr

/-- `vehIdInt, err := strconv.ParseInt(vehId, 0, 64); if err != nil
{ vehIdInt = -1 }`. -/
def vehIdCoerce (vehId : String) : Int :=
  match goParseInt64 vehId with
  | some n => n
  | none => -1

/-- The `telemetry := VesselTelemetry{...}` literal built by
`setVesselTelemetry` from the parsed parameters, with
`Timestamp: time.Now().UnixMilli()` passed in as `now`. -/
def mkTelemetry (p : SetParams) (now : Int) : VesselTelemetry :=
  let tgtXf := parseFloat p.tgtXPos
  let tgtYf := parseFloat p.tgtYPos
  { ID := vehIdCoerce p.vehId
    Name := p.veh_name
    Callsign := p.callsign
    X := parseFloat p.vehXPos
    Y := parseFloat p.vehYPos
    Z := parseFloat p.vehZPos
    ABSSpeed := parseFloat p.vehAbsSpeed
    VType := VesselTypeFromInt32 (parseInt32 p.vesselType)
    Direction := parseFloat p.vehDir
    Timestamp := now
    TgtX := tgtXf
    TgtY := tgtYf
    TgtZ := parseFloat p.tgtZPos
    HasTgt := decide (tgtXf ≠ 0 ∧ tgtYf ≠ 0) }

/-- The snapshot loop `for _, v := range vessels { vesselsList =
append(vesselsList, v) }`. -/
def snapshotList (store : Store) : List VesselTelemetry :=
  store.map Prod.snd

/-- `func setVesselTelemetry(w, r)`: returns the response body and the
store after the call.  `now` is the `time.Now().UnixMilli()` stamped into
the record, `nowResp` the separate `time.Now().UnixMilli()` in the
response literal. -/
def setVesselTelemetry (p : SetParams) (now nowResp : Int) (store : Store) :
    Response × Store :=
  if p.vehId = "" then (.errBody ErrorWrongID, store)
  else if p.vesselType = "" then (.errBody ErrorWrongVesselType, store)
  else
    let telemetry := mkTelemetry p now
    let store' := storeSet store p.vehId telemetry
    let vesselsList := snapshotList store'
    (.okBody ErrorSuccess vesselsList vesselsList.length nowResp, store')

/-- `func getTelemetryData(w, r)`: read-only snapshot response; `now` is
the `time.Now().UnixMilli()` in the response literal. -/
def getTelemetryData (store : Store) (now : Int) : Response :=
  let vesselsList := snapshotList store
  .okBody ErrorSuccess vesselsList vesselsList.length now

/-! ## Server state and the sweeper (`src/main.go`) -/

/-- The process's mutable globals: the `vessels` map and the
`cleanupEnabled` flag. -/
structure ServerState where
  vessels : Store
  cleanupEnabled : Bool
deriving DecidableEq, Repr

/-- State at `main` start: empty map, `cleanupEnabled = true`. -/
def initialState : ServerState :=
  { vessels := [], cleanupEnabled := true }

/-- One iteration of the `cleanupOldVessels` loop: skip when
`!cleanupEnabled` (reported as `none`), otherwise sweep with
`threshold := now - 5000` and report the removed count. -/
def cleanupTick (s : ServerState) (now : Int) : ServerState × Option Nat :=
  if !s.cleanupEnabled then (s, none)
  else
    let r := sweep s.vessels now cleanupThresholdMillis
    ({ s with vessels := r.1 }, some r.2)

/-- Effect of one `setVesselTelemetry` request on the globals. -/
def setStep (s : ServerState) (p : SetParams) (now nowResp : Int) : ServerState :=
  { s with vessels := (setVesselTelemetry p now nowResp s.vessels).2 }

/-- States the process can reach: the initial state, closed under request
handling and sweeper ticks (`getTelemetryData` and `infoGetHandler` do not
mutate the globals; nothing in the program assigns `cleanupEnabled`). -/
inductive Reachable : ServerState → Prop where
  | init : Reachable initialState
  | set (s : ServerState) (p : SetParams) (now nowResp : Int) :
      Reachable s → Reachable (setStep s p now nowResp)
  | tick (s : ServerState) (now : Int) :
      Reachable s → Reachable (cleanupTick s now).1

/-! ## Store lemmas -/

theorem storeKeys_nil : storeKeys [] = [] := rfl

theorem storeKeys_cons (kv : String × VesselTelemetry) (rest : Store) :
    storeKeys (kv :: rest) = kv.1 :: storeKeys rest := rfl

theorem countKey_nil (k : String) : countKey [] k = 0 := rfl

theorem countKey_cons (kv : String × VesselTelemetry) (rest : Store) (k : String) :
    countKey (kv :: rest) k = countKey rest k + (if kv.1 = k then 1 else 0) := by
  rw [countKey, List.countP_cons, countKey]
  simp

theorem countKey_eq_zero (store : Store) (k : String) (h : k ∉ storeKeys store) :
    countKey store k = 0 := by
  induction store with
  | nil => rfl
  | cons kv rest ih =>
      rw [storeKeys_cons, List.mem_cons] at h
      push_neg at h
      rw [countKey_cons, ih h.2, if_neg (fun hh => h.1 hh.symm)]

theorem storeGet_storeSet_self (store : Store) (k : String) (v : VesselTelemetry) :
    storeGet (storeSet store k v) k = some v := by
  induction store with
  | nil => simp [storeSet, storeGet]
  | cons kv rest ih =>
      rw [storeSet]
      by_cases h : kv.1 = k
      · rw [if_pos h, storeGet, if_pos rfl]
      · rw [if_neg h, storeGet, if_neg h, ih]

theorem storeGet_storeSet_ne (store : Store) (k k' : String) (v : VesselTelemetry)
    (h : k' ≠ k) : storeGet (storeSet store k v) k' = storeGet store k' := by
  have h' : ¬k = k' := fun hh => h hh.symm
  induction store with
  | nil => simp [storeSet, storeGet, h']
  | cons kv rest ih =>
      rw [storeSet]
      by_cases hk : kv.1 = k
      · rw [if_pos hk, storeGet, if_neg h', storeGet, if_neg (by rw [hk]; exact h')]
      · rw [if_neg hk, storeGet, storeGet]
        by_cases hk' : kv.1 = k'
        · rw [if_pos hk', if_pos hk']
        · rw [if_neg hk', if_neg hk', ih]

theorem mem_storeKeys_storeSet (store : Store) (k : String) (v : VesselTelemetry)
    (a : String) :
    a ∈ storeKeys (storeSet store k v) ↔ a ∈ storeKeys store ∨ a = k := by
  induction store with
  | nil => simp [storeSet, storeKeys]
  | cons kv rest ih =>
      rw [storeSet]
      by_cases h : kv.1 = k
      · rw [if_pos h, storeKeys_cons, storeKeys_cons, List.mem_cons, List.mem_cons]
        rw [← h]
        tauto
      · rw [if_neg h, storeKeys_cons, storeKeys_cons, List.mem_cons, List.mem_cons, ih]
        tauto

theorem WF_storeSet (store : Store) (k : String) (v : VesselTelemetry)
    (h : Store.WF store) : Store.WF (storeSet store k v) := by
  induction store with
  | nil => simp [storeSet, Store.WF, storeKeys]
  | cons kv rest ih =>
      rw [Store.WF, storeKeys_cons, List.nodup_cons] at h
      rw [storeSet]
      by_cases hk : kv.1 = k
      · rw [if_pos hk, Store.WF, storeKeys_cons, List.nodup_cons]
        exact ⟨by rw [← hk] at *; exact h.1, h.2⟩
      · rw [if_neg hk, Store.WF, storeKeys_cons, List.nodup_cons]
        refine ⟨?_, ih h.2⟩
        rw [mem_storeKeys_storeSet]
        rintro (hmem | hEq)
        · exact h.1 hmem
        · exact hk hEq

theorem countKey_storeSet (store : Store) (k : String) (v : VesselTelemetry)
    (h : Store.WF store) : countKey (storeSet store k v) k = 1 := by
  induction store with
  | nil => simp [storeSet, countKey_cons, countKey_nil]
  | cons kv rest ih =>
      rw [Store.WF, storeKeys_cons, List.nodup_cons] at h
      rw [storeSet]
      by_cases hk : kv.1 = k
      · rw [if_pos hk, countKey_cons]
        have hz : countKey rest k = 0 := countKey_eq_zero rest k (hk ▸ h.1)
        simp [hz]
      · rw [if_neg hk, countKey_cons, ih h.2, if_neg hk]

theorem mem_storeKeys_sweepList (store : Store) (thr : Int) (a : String)
    (h : a ∈ storeKeys (sweepList store thr).1) : a ∈ storeKeys store := by
  induction store with
  | nil => simpa [sweepList] using h
  | cons kv rest ih =>
      rw [sweepList] at h
      rw [storeKeys_cons, List.mem_cons]
      by_cases hts : kv.2.Timestamp < thr
      · rw [if_pos hts] at h
        exact Or.inr (ih h)
      · rw [if_neg hts, storeKeys_cons, List.mem_cons] at h
        exact h.imp id ih

theorem WF_sweepList (store : Store) (thr : Int) (h : Store.WF store) :
    Store.WF (sweepList store thr).1 := by
  induction store with
  | nil => simpa [sweepList] using h
  | cons kv rest ih =>
      rw [Store.WF, storeKeys_cons, List.nodup_cons] at h
      rw [sweepList]
      by_cases hts : kv.2.Timestamp < thr
      · rw [if_pos hts]
        exact ih h.2
      · rw [if_neg hts, Store.WF, storeKeys_cons, List.nodup_cons]
        exact ⟨fun hmem => h.1 (mem_storeKeys_sweepList rest thr kv.1 hmem), ih h.2⟩

theorem sweepList_fst (store : Store) (thr : Int) :
    (sweepList store thr).1 = store.filter (fun kv => !decide (kv.2.Timestamp < thr)) := by
  induction store with
  | nil => rfl
  | cons kv rest ih =>
      rw [sweepList, List.filter_cons]
      by_cases hts : kv.2.Timestamp < thr
      · simp [hts, ih]
      · simp [hts, ih]

theorem sweepList_snd (store : Store) (thr : Int) :
    (sweepList store thr).2 = (store.filter (fun kv => decide (kv.2.Timestamp < thr))).length := by
  induction store with
  | nil => rfl
  | cons kv rest ih =>
      rw [sweepList, List.filter_cons]
      by_cases hts : kv.2.Timestamp < thr
      · simp [hts, ih]
      · simp [hts, ih]

/-- The success path of `setVesselTelemetry`, as one equation. -/
theorem setVesselTelemetry_ok (p : SetParams) (now nowResp : Int) (store : Store)
    (h1 : p.vehId ≠ "") (h2 : p.vesselType ≠ "") :
    setVesselTelemetry p now nowResp store =
      (.okBody ErrorSuccess (snapshotList (storeSet store p.vehId (mkTelemetry p now)))
        (snapshotList (storeSet store p.vehId (mkTelemetry p now))).length nowResp,
       storeSet store p.vehId (mkTelemetry p now)) := by
  rw [setVesselTelemetry]
  simp only [if_neg h1, if_neg h2]

/-- `Store.WF` holds in every reachable state. -/
theorem Reachable.WF_vessels {s : ServerState} (h : Reachable s) :
    Store.WF s.vessels := by
  induction h with
  | init => simp [initialState, Store.WF, storeKeys]
  | set s p now nowResp _ ih =>
      rw [setStep]
      by_cases h1 : p.vehId = ""
      · simpa [setVesselTelemetry, h1] using ih
      · by_cases h2 : p.vesselType = ""
        · simpa [setVesselTelemetry, h1, h2] using ih
        · rw [setVesselTelemetry_ok p now nowResp s.vessels h1 h2]
          exact WF_storeSet _ _ _ ih
  | tick s now _ ih =>
      rw [cleanupTick]
      by_cases hEn : s.cleanupEnabled
      · simp only [hEn, Bool.not_true, Bool.false_eq_true, if_false]
        exact WF_sweepList _ _ ih
      · simp only [Bool.not_eq_true] at hEn
        simp [hEn, ih]

/-- `cleanupEnabled` is never assigned after initialization. -/
theorem Reachable.cleanupEnabled_eq {s : ServerState} (h : Reachable s) :
    s.cleanupEnabled = true := by
  induction h with
  | init => rfl
  | set s p now nowResp _ ih => simpa [setStep] using ih
  | tick s now _ ih =>
      rw [cleanupTick]
      simp [ih]

/-! ## Concrete-value lemmas -/

theorem parseFloat_zero_lit : parseFloat "0" = 0 := by
  simp +decide [parseFloat, floatTok, takeDigits, natOfDigits]

theorem parseFloat_three_lit : parseFloat "3" = 3 := by
  simp +decide [parseFloat, floatTok, takeDigits, natOfDigits]

theorem parseFloat_five_lit : parseFloat "5" = 5 := by
  simp +decide [parseFloat, floatTok, takeDigits, natOfDigits]

theorem parseFloat_notanumber : parseFloat "notanumber" = 0 := by
  simp +decide [parseFloat, floatTok, takeDigits, natOfDigits]

theorem parseFloat_empty : parseFloat "" = 0 := by
  simp +decide [parseFloat, floatTok, takeDigits, natOfDigits]

/-! ## Witness material -/

/-- A record with every field zeroed except the timestamp. -/
def witnessRec (ts : Int) : VesselTelemetry :=
  { ID := 0, Name := "", Callsign := "", X := 0, Y := 0, Z := 0, ABSSpeed := 0,
    VType := ⟨0⟩, Direction := 0, Timestamp := ts, TgtX := 0, TgtY := 0, TgtZ := 0,
    HasTgt := false }

/-- Request with every parameter absent (`url.Values.Get` yields `""`). -/
def emptyParams : SetParams :=
  { vehId := "", vehXPos := "", vehYPos := "", vehZPos := "", vehAbsSpeed := "",
    vehDir := "", veh_name := "", callsign := "", vesselType := "", tgtXPos := "",
    tgtYPos := "", tgtZPos := "" }

/-- Concrete request: id `1`, type `2`, target `(0, 5)`. -/
def reqTgt05 : SetParams :=
  { emptyParams with vehId := "1", vesselType := "2", tgtXPos := "0", tgtYPos := "5" }

/-- Concrete request: id `1`, type `2`, target `(3, 5)`. -/
def reqTgt35 : SetParams :=
  { emptyParams with vehId := "1", vesselType := "2", tgtXPos := "3", tgtYPos := "5" }

/-- Concrete request: id `1`, type `2`, target `(0, 0)`. -/
def reqTgt00 : SetParams :=
  { emptyParams with vehId := "1", vesselType := "2", tgtXPos := "0", tgtYPos := "0" }

/-- Concrete request: id `1`, type `2`, `veh_x=notanumber`. -/
def reqNotanum : SetParams :=
  { emptyParams with vehId := "1", vesselType := "2", vehXPos := "notanumber" }

/-- Concrete request: id `1`, type `2`, everything else absent. -/
def reqPlain : SetParams :=
  { emptyParams with vehId := "1", vesselType := "2" }

/-! ## Claims -/

/-- C1: for every store, current time `now` and threshold `T`, a sweep
keeps exactly the records with `timestamp ≥ now - T`, reports the number
removed, and in particular removes a record stamped `now - T - 1` while
records stamped `now - T` and `now - T + 1` survive. -/
theorem sweep_removes_exactly_stale (store : Store) (now T : Int) :
    (sweep store now T).1 =
      store.filter (fun kv => !decide (kv.2.Timestamp < now - T)) ∧
    (sweep store now T).2 =
      (store.filter (fun kv => decide (kv.2.Timestamp < now - T))).length ∧
    (∀ kv ∈ store, kv.2.Timestamp = now - T - 1 → kv ∉ (sweep store now T).1) ∧
    (∀ kv ∈ store, kv.2.Timestamp = now - T → kv ∈ (sweep store now T).1) ∧
    (∀ kv ∈ store, kv.2.Timestamp = now - T + 1 → kv ∈ (sweep store now T).1) := by
  rw [sweep]
  refine ⟨sweepList_fst store (now - T), sweepList_snd store (now - T), ?_, ?_, ?_⟩
  · intro kv hmem hts hcon
    rw [sweepList_fst, List.mem_filter] at hcon
    have h2 := hcon.2
    simp only [Bool.not_eq_true', decide_eq_false_iff_not] at h2
    omega
  · intro kv hmem hts
    rw [sweepList_fst, List.mem_filter]
    refine ⟨hmem, ?_⟩
    simp only [Bool.not_eq_true', decide_eq_false_iff_not]
    omega
  · intro kv hmem hts
    rw [sweepList_fst, List.mem_filter]
    refine ⟨hmem, ?_⟩
    simp only [Bool.not_eq_true', decide_eq_false_iff_not]
    omega

/-- C1 witness: at `now = 100`, `T = 5`, the record stamped 94 is removed
while records stamped 95 and 96 survive. -/
theorem sweep_removes_exactly_stale_witness :
    ("old", witnessRec 94) ∉
      (sweep [("old", witnessRec 94), ("a", witnessRec 95), ("b", witnessRec 96)] 100 5).1 ∧
    ("a", witnessRec 95) ∈
      (sweep [("old", witnessRec 94), ("a", witnessRec 95), ("b", witnessRec 96)] 100 5).1 ∧
    ("b", witnessRec 96) ∈
      (sweep [("old", witnessRec 94), ("a", witnessRec 95), ("b", witnessRec 96)] 100 5).1 := by
  have h := sweep_removes_exactly_stale
    [("old", witnessRec 94), ("a", witnessRec 95), ("b", witnessRec 96)] 100 5
  exact ⟨h.2.2.1 _ (by simp) (by norm_num [witnessRec]),
         h.2.2.2.1 _ (by simp) (by norm_num [witnessRec]),
         h.2.2.2.2 _ (by simp) (by norm_num [witnessRec])⟩

/-- C3: a request with empty `veh_id` answers exactly the one-field body
`{"errorcode": 1201}` and leaves the store unchanged; with `veh_id`
present but `type` empty, it answers exactly `{"errorcode": 1202}` and
leaves the store unchanged. -/
theorem missing_field_errors (p : SetParams) (now nowResp : Int) (store : Store) :
    (p.vehId = "" →
      setVesselTelemetry p now nowResp store = (.errBody ErrorWrongID, store)) ∧
    (p.vehId ≠ "" → p.vesselType = "" →
      setVesselTelemetry p now nowResp store = (.errBody ErrorWrongVesselType, store)) := by
  constructor
  · intro h1
    rw [setVesselTelemetry, if_pos h1]
  · intro h1 h2
    rw [setVesselTelemetry, if_neg h1, if_pos h2]

/-- C3 witness: the two error bodies on concrete requests against the
empty store. -/
theorem missing_field_errors_witness :
    setVesselTelemetry emptyParams 0 0 [] = (.errBody ErrorWrongID, []) ∧
    setVesselTelemetry { emptyParams with vehId := "7" } 0 0 [] =
      (.errBody ErrorWrongVesselType, []) :=
  ⟨(missing_field_errors emptyParams 0 0 []).1 rfl,
   (missing_field_errors { emptyParams with vehId := "7" } 0 0 []).2 (by decide) rfl⟩

/-- C10: `cleanupEnabled` is initialized to `true` and never assigned, so
in every reachable state the flag is `true` and every sweeper tick takes
the sweep branch, never the skip branch. -/
theorem cleanup_always_enabled (s : ServerState) (h : Reachable s) (now : Int) :
    s.cleanupEnabled = true ∧
    cleanupTick s now =
      ({ s with vessels := (sweep s.vessels now cleanupThresholdMillis).1 },
        some (sweep s.vessels now cleanupThresholdMillis).2) := by
  have hEn := h.cleanupEnabled_eq
  refine ⟨hEn, ?_⟩
  rw [cleanupTick]
  simp [hEn]

/-- C10 witness: the initial state is reachable, its flag is `true`, and
the tick at time 0 sweeps. -/
theorem cleanup_always_enabled_witness :
    initialState.cleanupEnabled = true ∧
    cleanupTick initialState 0 =
      ({ initialState with
          vessels := (sweep initialState.vessels 0 cleanupThresholdMillis).1 },
        some (sweep initialState.vessels 0 cleanupThresholdMillis).2) :=
  cleanup_always_enabled initialState Reachable.init 0

/-- C2: on a well-formed store, upserting the same id twice leaves exactly
one record under that id, equal to the record built entirely from the
second call, whose timestamp is at least the first call's timestamp
(given a monotone clock). -/
theorem upsert_replace (store : Store) (p1 p2 : SetParams) (now1 nr1 now2 nr2 : Int)
    (hWF : Store.WF store) (hid : p1.vehId = p2.vehId)
    (h1 : p1.vehId ≠ "") (ht1 : p1.vesselType ≠ "") (ht2 : p2.vesselType ≠ "")
    (hclock : now1 ≤ now2) :
    countKey (setVesselTelemetry p2 now2 nr2
        (setVesselTelemetry p1 now1 nr1 store).2).2 p2.vehId = 1 ∧
    storeGet (setVesselTelemetry p2 now2 nr2
        (setVesselTelemetry p1 now1 nr1 store).2).2 p2.vehId =
      some (mkTelemetry p2 now2) ∧
    (mkTelemetry p1 now1).Timestamp ≤ (mkTelemetry p2 now2).Timestamp := by
  have h2 : p2.vehId ≠ "" := hid ▸ h1
  have hs1 : (setVesselTelemetry p1 now1 nr1 store).2 =
      storeSet store p1.vehId (mkTelemetry p1 now1) := by
    rw [setVesselTelemetry_ok p1 now1 nr1 store h1 ht1]
  rw [hs1]
  have hs2 : (setVesselTelemetry p2 now2 nr2
      (storeSet store p1.vehId (mkTelemetry p1 now1))).2 =
      storeSet (storeSet store p1.vehId (mkTelemetry p1 now1)) p2.vehId
        (mkTelemetry p2 now2) := by
    rw [setVesselTelemetry_ok p2 now2 nr2 _ h2 ht2]
  rw [hs2]
  have hWF1 := WF_storeSet store p1.vehId (mkTelemetry p1 now1) hWF
  exact ⟨countKey_storeSet _ _ _ hWF1, storeGet_storeSet_self _ _ _,
    by simp [mkTelemetry, hclock]⟩

/-- C2 witness: two upserts for id `"9"` leave one record, the second
call's, with the later timestamp. -/
theorem upsert_replace_witness :
    countKey (setVesselTelemetry { emptyParams with vehId := "9", vesselType := "3" }
        20 21 (setVesselTelemetry { emptyParams with vehId := "9", vesselType := "2" }
          10 11 []).2).2 "9" = 1 ∧
    storeGet (setVesselTelemetry { emptyParams with vehId := "9", vesselType := "3" }
        20 21 (setVesselTelemetry { emptyParams with vehId := "9", vesselType := "2" }
          10 11 []).2).2 "9" =
      some (mkTelemetry { emptyParams with vehId := "9", vesselType := "3" } 20) ∧
    (mkTelemetry { emptyParams with vehId := "9", vesselType := "2" } 10).Timestamp ≤
      (mkTelemetry { emptyParams with vehId := "9", vesselType := "3" } 20).Timestamp :=
  upsert_replace [] { emptyParams with vehId := "9", vesselType := "2" }
    { emptyParams with vehId := "9", vesselType := "3" } 10 11 20 21
    (by simp [Store.WF, storeKeys]) rfl (by decide) (by decide) (by decide) (by decide)

/-- C4: the stored record's `HasTgt` is exactly the boolean
`parsed tgt_x ≠ 0 ∧ parsed tgt_y ≠ 0`; on the inputs `0`/`5` it is
`false`, on `3`/`5` it is `true`, on `0`/`0` it is `false`. -/
theorem hasTarget_policy (p : SetParams) (now nowResp : Int) (store : Store)
    (h1 : p.vehId ≠ "") (h2 : p.vesselType ≠ "") :
    storeGet (setVesselTelemetry p now nowResp store).2 p.vehId =
      some (mkTelemetry p now) ∧
    (mkTelemetry p now).HasTgt =
      decide (parseFloat p.tgtXPos ≠ 0 ∧ parseFloat p.tgtYPos ≠ 0) ∧
    (p.tgtXPos = "0" → p.tgtYPos = "5" → (mkTelemetry p now).HasTgt = false) ∧
    (p.tgtXPos = "3" → p.tgtYPos = "5" → (mkTelemetry p now).HasTgt = true) ∧
    (p.tgtXPos = "0" → p.tgtYPos = "0" → (mkTelemetry p now).HasTgt = false) := by
  refine ⟨?_, rfl, ?_, ?_, ?_⟩
  · rw [setVesselTelemetry_ok p now nowResp store h1 h2]
    exact storeGet_storeSet_self _ _ _
  · intro hx hy
    simp [mkTelemetry, hx, hy, parseFloat_zero_lit, parseFloat_five_lit]
  · intro hx hy
    norm_num [mkTelemetry, hx, hy, parseFloat_three_lit, parseFloat_five_lit]
  · intro hx hy
    simp [mkTelemetry, hx, hy, parseFloat_zero_lit]

/-- C4 witness: the three target-parameter combinations on concrete
requests. -/
theorem hasTarget_policy_witness :
    (mkTelemetry reqTgt05 0).HasTgt = false ∧
    (mkTelemetry reqTgt35 0).HasTgt = true ∧
    (mkTelemetry reqTgt00 0).HasTgt = false :=
  ⟨(hasTarget_policy reqTgt05 0 0 [] (by decide) (by decide)).2.2.1 rfl rfl,
   (hasTarget_policy reqTgt35 0 0 [] (by decide) (by decide)).2.2.2.1 rfl rfl,
   (hasTarget_policy reqTgt00 0 0 [] (by decide) (by decide)).2.2.2.2 rfl rfl⟩

/-- C5: an unparseable numeric parameter coerces to `0` instead of
rejecting the request: every failed float scan yields `0`, the absent
parameter (`""`) yields `0`, the request still succeeds, every numeric
field of the stored record is the coerced parse of its parameter, and
`veh_x=notanumber` stores `x = 0`. -/
theorem numeric_coercion_to_zero (p : SetParams) (now nowResp : Int) (store : Store)
    (h1 : p.vehId ≠ "") (h2 : p.vesselType ≠ "") :
    (∀ s : String, floatTok s.toList = none → parseFloat s = 0) ∧
    parseFloat "" = 0 ∧
    (∃ vl n, (setVesselTelemetry p now nowResp store).1 =
      .okBody ErrorSuccess vl n nowResp) ∧
    storeGet (setVesselTelemetry p now nowResp store).2 p.vehId =
      some (mkTelemetry p now) ∧
    ((mkTelemetry p now).X = parseFloat p.vehXPos ∧
     (mkTelemetry p now).Y = parseFloat p.vehYPos ∧
     (mkTelemetry p now).Z = parseFloat p.vehZPos ∧
     (mkTelemetry p now).ABSSpeed = parseFloat p.vehAbsSpeed ∧
     (mkTelemetry p now).Direction = parseFloat p.vehDir ∧
     (mkTelemetry p now).TgtX = parseFloat p.tgtXPos ∧
     (mkTelemetry p now).TgtY = parseFloat p.tgtYPos ∧
     (mkTelemetry p now).TgtZ = parseFloat p.tgtZPos) ∧
    (p.vehXPos = "notanumber" → (mkTelemetry p now).X = 0) := by
  refine ⟨?_, parseFloat_empty, ?_, ?_, ⟨rfl, rfl, rfl, rfl, rfl, rfl, rfl, rfl⟩, ?_⟩
  · intro s hs
    rw [parseFloat, hs]
  · rw [setVesselTelemetry_ok p now nowResp store h1 h2]
    exact ⟨_, _, rfl⟩
  · rw [setVesselTelemetry_ok p now nowResp store h1 h2]
    exact storeGet_storeSet_self _ _ _
  · intro hx
    simp [mkTelemetry, hx, parseFloat_notanumber]

/-- C5 witness: `veh_x=notanumber` is accepted and stores `x = 0`. -/
theorem numeric_coercion_to_zero_witness :
    (∃ vl n, (setVesselTelemetry reqNotanum 0 0 []).1 =
      .okBody ErrorSuccess vl n 0) ∧
    (mkTelemetry reqNotanum 0).X = 0 :=
  ⟨(numeric_coercion_to_zero reqNotanum 0 0 [] (by decide) (by decide)).2.2.1,
   (numeric_coercion_to_zero reqNotanum 0 0 [] (by decide) (by decide)).2.2.2.2.2 rfl⟩

/-- C6: a non-empty `veh_id` that fails integer parsing is accepted: the
record lands under the raw string key with its `ID` field `-1`. -/
theorem unparseable_vehid_accepted (p : SetParams) (now nowResp : Int) (store : Store)
    (h1 : p.vehId ≠ "") (h2 : p.vesselType ≠ "")
    (hbad : goParseInt64 p.vehId = none) :
    (∃ vl n, (setVesselTelemetry p now nowResp store).1 =
      .okBody ErrorSuccess vl n nowResp) ∧
    storeGet (setVesselTelemetry p now nowResp store).2 p.vehId =
      some (mkTelemetry p now) ∧
    (mkTelemetry p now).ID = -1 := by
  refine ⟨?_, ?_, ?_⟩
  · rw [setVesselTelemetry_ok p now nowResp store h1 h2]
    exact ⟨_, _, rfl⟩
  · rw [setVesselTelemetry_ok p now nowResp store h1 h2]
    exact storeGet_storeSet_self _ _ _
  · simp [mkTelemetry, vehIdCoerce, hbad]

/-- C6 witness: `veh_id=abc` is stored under key `"abc"` with `ID = -1`. -/
theorem unparseable_vehid_accepted_witness :
    storeGet (setVesselTelemetry { emptyParams with vehId := "abc", vesselType := "2" }
        0 0 []).2 "abc" =
      some (mkTelemetry { emptyParams with vehId := "abc", vesselType := "2" } 0) ∧
    (mkTelemetry { emptyParams with vehId := "abc", vesselType := "2" } 0).ID = -1 :=
  ⟨(unparseable_vehid_accepted { emptyParams with vehId := "abc", vesselType := "2" }
      0 0 [] (by decide) (by decide) (by decide)).2.1,
   (unparseable_vehid_accepted { emptyParams with vehId := "abc", vesselType := "2" }
      0 0 [] (by decide) (by decide) (by decide)).2.2⟩

/-- C7: every successful set-telemetry response and every getVessels
response carries errorcode `-1`, the list of all records currently in the
store, a count equal to that list's length, and the current time as its
timestamp. -/
theorem success_response_shape (p : SetParams) (now nowResp nowGet : Int)
    (store : Store) (h1 : p.vehId ≠ "") (h2 : p.vesselType ≠ "") :
    (setVesselTelemetry p now nowResp store).1 =
      .okBody ErrorSuccess (snapshotList (setVesselTelemetry p now nowResp store).2)
        (snapshotList (setVesselTelemetry p now nowResp store).2).length nowResp ∧
    getTelemetryData store nowGet =
      .okBody ErrorSuccess (snapshotList store) (snapshotList store).length nowGet := by
  constructor
  · rw [setVesselTelemetry_ok p now nowResp store h1 h2]
  · rfl

/-- C7 witness: the response shapes on a concrete request and store. -/
theorem success_response_shape_witness :
    (setVesselTelemetry reqPlain 5 6 [("z", witnessRec 3)]).1 =
      .okBody ErrorSuccess
        (snapshotList (setVesselTelemetry reqPlain 5 6 [("z", witnessRec 3)]).2)
        (snapshotList (setVesselTelemetry reqPlain 5 6 [("z", witnessRec 3)]).2).length
        6 ∧
    getTelemetryData [("z", witnessRec 3)] 7 =
      .okBody ErrorSuccess (snapshotList [("z", witnessRec 3)])
        (snapshotList [("z", witnessRec 3)]).length 7 :=
  success_response_shape reqPlain 5 6 7 [("z", witnessRec 3)] (by decide) (by decide)

/-- C8: the vessel-type enumeration is open: converting any int32 code to
`VesselType` and back is the identity, and the stored record's type is the
raw converted integer of the `type` parameter. -/
theorem vesselType_open_roundtrip (c : Int) (_hlo : -(2 ^ 31) ≤ c) (_hhi : c < 2 ^ 31) :
    VesselType.ToInt32 (VesselTypeFromInt32 c) = c ∧
    (∀ (p : SetParams) (now : Int),
      (mkTelemetry p now).VType = VesselTypeFromInt32 (parseInt32 p.vesselType)) :=
  ⟨rfl, fun _ _ => rfl⟩

/-- C8 witness: the code `7`, outside `{1, 2, 3, 4}`, roundtrips
unchanged. -/
theorem vesselType_open_roundtrip_witness :
    VesselType.ToInt32 (VesselTypeFromInt32 7) = 7 ∧
    (∀ (p : SetParams) (now : Int),
      (mkTelemetry p now).VType = VesselTypeFromInt32 (parseInt32 p.vesselType)) :=
  vesselType_open_roundtrip 7 (by decide) (by decide)

/-- C9: records are keyed by the raw `veh_id` string, not the parsed
integer: two requests with distinct non-empty id strings that coerce to
the same integer leave two records, under the two distinct keys, with
equal `ID` fields. -/
theorem keyed_by_raw_string (store : Store) (p1 p2 : SetParams)
    (now1 nr1 now2 nr2 : Int)
    (hk : p1.vehId ≠ p2.vehId) (h1 : p1.vehId ≠ "") (h2 : p2.vehId ≠ "")
    (ht1 : p1.vesselType ≠ "") (ht2 : p2.vesselType ≠ "")
    (hsame : vehIdCoerce p1.vehId = vehIdCoerce p2.vehId) :
    storeGet (setVesselTelemetry p2 now2 nr2
        (setVesselTelemetry p1 now1 nr1 store).2).2 p1.vehId =
      some (mkTelemetry p1 now1) ∧
    storeGet (setVesselTelemetry p2 now2 nr2
        (setVesselTelemetry p1 now1 nr1 store).2).2 p2.vehId =
      some (mkTelemetry p2 now2) ∧
    (mkTelemetry p1 now1).ID = (mkTelemetry p2 now2).ID := by
  have hs1 : (setVesselTelemetry p1 now1 nr1 store).2 =
      storeSet store p1.vehId (mkTelemetry p1 now1) := by
    rw [setVesselTelemetry_ok p1 now1 nr1 store h1 ht1]
  rw [hs1]
  have hs2 : (setVesselTelemetry p2 now2 nr2
      (storeSet store p1.vehId (mkTelemetry p1 now1))).2 =
      storeSet (storeSet store p1.vehId (mkTelemetry p1 now1)) p2.vehId
        (mkTelemetry p2 now2) := by
    rw [setVesselTelemetry_ok p2 now2 nr2 _ h2 ht2]
  rw [hs2]
  refine ⟨?_, storeGet_storeSet_self _ _ _, ?_⟩
  · rw [storeGet_storeSet_ne _ _ _ _ hk]
    exact storeGet_storeSet_self _ _ _
  · simpa [mkTelemetry] using hsame

/-- C9 witness: `veh_id=10` and `veh_id=0xa` parse to the same integer 10
yet produce two records under the two raw keys, with equal `ID`s. -/
theorem keyed_by_raw_string_witness :
    storeGet (setVesselTelemetry { emptyParams with vehId := "0xa", vesselType := "2" }
        2 3 (setVesselTelemetry { emptyParams with vehId := "10", vesselType := "2" }
          0 1 []).2).2 "10" =
      some (mkTelemetry { emptyParams with vehId := "10", vesselType := "2" } 0) ∧
    storeGet (setVesselTelemetry { emptyParams with vehId := "0xa", vesselType := "2" }
        2 3 (setVesselTelemetry { emptyParams with vehId := "10", vesselType := "2" }
          0 1 []).2).2 "0xa" =
      some (mkTelemetry { emptyParams with vehId := "0xa", vesselType := "2" } 2) ∧
    (mkTelemetry { emptyParams with vehId := "10", vesselType := "2" } 0).ID =
      (mkTelemetry { emptyParams with vehId := "0xa", vesselType := "2" } 2).ID :=
  keyed_by_raw_string [] { emptyParams with vehId := "10", vesselType := "2" }
    { emptyParams with vehId := "0xa", vesselType := "2" } 0 1 2 3
    (by decide) (by decide) (by decide) (by decide) (by decide) (by decide)

end Datalink
